import Mathlib

/-!
Verification of the locale-resolution core of `Source/Engine/Localization/Localization.cpp`
(Flax Engine localization service): the three-tier language fallback, the table-pool
rebuild, the active-set swap, and the culture/language setter state machine.
-/

namespace Localization

/-- Modelled from the spec: the external culture facility (`CultureInfo.h`, not part of
the verified sources) maps a locale identifier (LCID) to a canonical locale name and to
the name of its parent culture, returning an empty name when no parent exists.
Equality of cultures is on the locale identifier, not on the name string. -/
structure CultureInfo where
  lcid : Nat
  name : String
  parentName : String
deriving DecidableEq, Repr

/-- `CultureInfo::operator==` as used by the setter guards: identity comparison on the
locale identifier (modelled from the spec: equality on the locale identifier, not the
string). -/
def cultureEq (a b : CultureInfo) : Bool :=
  a.lcid == b.lcid

/-- A loaded `LocalizedStringTable` asset: an opaque handle (`id`) tagged with exactly
one locale string (`table->Locale` in the source). -/
structure LocalizedStringTable where
  locale : String
  id : Nat
deriving DecidableEq, Repr

/-- One configured table reference from `LocalizationSettings::LocalizedStringTables`.
`e.Get()` followed by `WaitForLoaded()` (Localization.cpp:60-61) either yields a loaded
table (`some t`) or nothing (`none`: null reference, or the load completed with failure),
in which case the entry is skipped. -/
abbrev Config := List (Option LocalizedStringTable)

/-- The tables that survive the load loop of `OnLocalizationChanged`
(Localization.cpp:58-65): each entry whose asset resolved and loaded, in configuration
order. -/
def loadedTables (cfg : Config) : List LocalizedStringTable :=
  cfg.filterMap id

/-- The `tables` dictionary bucket for one locale key (Localization.cpp:57-64):
successfully loaded tables whose `Locale` equals the key, in configuration order. -/
def bucket (cfg : Config) (loc : String) : List LocalizedStringTable :=
  (loadedTables cfg).filter (fun t => t.locale == loc)

/-- `tables.TryGet(key)` (Localization.cpp:68): a key is present in the dictionary iff
at least one loaded table carries that locale (buckets are created only by
`tables[table->Locale].Add(table)`), so the lookup yields the bucket exactly when it is
non-empty. -/
def tryGet (cfg : Config) (loc : String) : Option (List LocalizedStringTable) :=
  if (bucket cfg loc).isEmpty then none else some (bucket cfg loc)

/-- The three-tier fallback of `OnLocalizationChanged` (Localization.cpp:67-81):
exact match on the current language name; else, if the parent culture's name is
non-empty, match on the parent name; else match on the hard-coded English culture
`CultureInfo("en")`. Returns the matched locale key (recovered in the source by the
reverse scan at Localization.cpp:86-94) together with the bucket. -/
def resolveBucket (cfg : Config) (lang : CultureInfo) :
    Option (String × List LocalizedStringTable) :=
  match tryGet cfg lang.name with
  | some b => some (lang.name, b)
  | none =>
    match (if lang.parentName = "" then none else tryGet cfg lang.parentName) with
    | some b => some (lang.parentName, b)
    | none =>
      match tryGet cfg "en" with
      | some b => some ("en", b)
      | none => none

/-- Observable side effects of the localization service, in emission order. -/
inductive LocEvent
  /-- One execution of the resolution pass `OnLocalizationChanged` began. -/
  | pass
  /-- `LOG(Info, "Using localization for {0}", locale)` (Localization.cpp:95). -/
  | logUsing (locale : String)
  /-- `LOG(Info, "Changing current ... to: ...")` in a setter. -/
  | logChange (name : String) (lcid : Nat)
  /-- `Localization::LocalizationChanged()` delegate invocation (Localization.cpp:100). -/
  | notify
deriving DecidableEq, Repr

/-- The mutable state of the localization service singleton:
`Instance.CurrentCulture`, `Instance.CurrentLanguage` and the active set
`Instance.LocalizedStringTables`. -/
structure LocaleState where
  currentCulture : CultureInfo
  currentLanguage : CultureInfo
  activeSet : List LocalizedStringTable
deriving DecidableEq, Repr

/-- `LocalizationService::OnLocalizationChanged` (Localization.cpp:49-101): clear the
active set, rebuild the pool from the configured references, resolve a bucket for the
current language via the three-tier fallback, install the bucket (if any) as the new
active set, log the matched locale, and fire the change notification. -/
def onLocalizationChanged (cfg : Config) (s : LocaleState) : LocaleState × List LocEvent :=
  match resolveBucket cfg s.currentLanguage with
  | some (loc, b) =>
    ({ s with activeSet := b }, [LocEvent.pass, LocEvent.logUsing loc, LocEvent.notify])
  | none =>
    ({ s with activeSet := [] }, [LocEvent.pass, LocEvent.notify])

/-- `Localization::SetCurrentCulture` (Localization.cpp:121-129). -/
def setCurrentCulture (cfg : Config) (s : LocaleState) (v : CultureInfo) :
    LocaleState × List LocEvent :=
  if cultureEq s.currentCulture v then (s, [])
  else
    let r := onLocalizationChanged cfg { s with currentCulture := v }
    (r.1, LocEvent.logChange v.name v.lcid :: r.2)

/-- `Localization::SetCurrentLanguage` (Localization.cpp:136-144). -/
def setCurrentLanguage (cfg : Config) (s : LocaleState) (v : CultureInfo) :
    LocaleState × List LocEvent :=
  if cultureEq s.currentLanguage v then (s, [])
  else
    let r := onLocalizationChanged cfg { s with currentLanguage := v }
    (r.1, LocEvent.logChange v.name v.lcid :: r.2)

/-- `Localization::SetCurrentLanguageCulture` (Localization.cpp:146-155). -/
def setCurrentLanguageCulture (cfg : Config) (s : LocaleState) (v : CultureInfo) :
    LocaleState × List LocEvent :=
  if cultureEq s.currentCulture v && cultureEq s.currentLanguage v then (s, [])
  else
    let r := onLocalizationChanged cfg { s with currentCulture := v, currentLanguage := v }
    (r.1, LocEvent.logChange v.name v.lcid :: r.2)

/-- The public operations that can mutate the service state after startup:
the three setters, plus `LocalizationSettings::Apply` (Localization.cpp:39-42), which
invokes `OnLocalizationChanged` directly. -/
inductive LocOp
  | setCulture (v : CultureInfo)
  | setLanguage (v : CultureInfo)
  | setLanguageCulture (v : CultureInfo)
  | applySettings
deriving DecidableEq, Repr

/-- Run one public operation against the service state. -/
def runOp (cfg : Config) (s : LocaleState) : LocOp → LocaleState × List LocEvent
  | LocOp.setCulture v => setCurrentCulture cfg s v
  | LocOp.setLanguage v => setCurrentLanguage cfg s v
  | LocOp.setLanguageCulture v => setCurrentLanguageCulture cfg s v
  | LocOp.applySettings => onLocalizationChanged cfg s

/-- Number of resolution passes recorded in an event trace. -/
def passCount (evs : List LocEvent) : Nat :=
  evs.count LocEvent.pass

/-- Number of change notifications recorded in an event trace. -/
def notifyCount (evs : List LocEvent) : Nat :=
  evs.count LocEvent.notify

/-- The active-set invariant: the active set is either empty or exactly one pool bucket
(relative to the configuration the pool was built from). -/
def activeSetInv (cfg : Config) (act : List LocalizedStringTable) : Prop :=
  act = [] ∨ ∃ loc, tryGet cfg loc = some act

/-! Concrete fixtures used to exercise the theorems on closed inputs: locale tags and
LCIDs follow the Windows culture identifiers the engine uses. -/

/-- An English ("en") table. -/
def tEn : LocalizedStringTable := ⟨"en", 1⟩

/-- A British English ("en-GB") table. -/
def tEnGB : LocalizedStringTable := ⟨"en-GB", 2⟩

/-- A French ("fr") table. -/
def tFr : LocalizedStringTable := ⟨"fr", 3⟩

/-- A second English ("en") table, e.g. from another content pack. -/
def tEn2 : LocalizedStringTable := ⟨"en", 4⟩

/-- A Mexican Spanish ("es-MX") table. -/
def tEsMX : LocalizedStringTable := ⟨"es-MX", 5⟩

/-- The "en-GB" culture: parent culture "en". -/
def enGB : CultureInfo := ⟨2057, "en-GB", "en"⟩

/-- An alias of the "en-GB" culture: same LCID, different display string. -/
def enGBAlias : CultureInfo := ⟨2057, "British English", "en"⟩

/-- The "es-AR" culture: parent culture "es". -/
def esAR : CultureInfo := ⟨11274, "es-AR", "es"⟩

/-- Configuration with "en", "en-GB" and "fr" tables. -/
def cfgEx : Config := [some tEn, some tEnGB, some tFr]

/-- Configuration with "en" and "fr" tables only. -/
def cfgParent : Config := [some tEn, some tFr]

/-- Configuration with an "en" default table and a sibling-dialect "es-MX" table. -/
def cfgSibling : Config := [some tEn, some tEsMX]

/-- Configuration with only a "fr" table: no match for "es-AR" at any tier. -/
def cfgNoMatch : Config := [some tFr]

/-- Service state whose language and culture are "en-GB". -/
def stEx : LocaleState := ⟨enGB, enGB, []⟩

/-- Service state whose language and culture are "es-AR". -/
def stEsAR : LocaleState := ⟨esAR, esAR, []⟩

theorem pass_currentLanguage (cfg : Config) (s : LocaleState) :
    ((onLocalizationChanged cfg s).1).currentLanguage = s.currentLanguage := by
  unfold onLocalizationChanged
  rcases resolveBucket cfg s.currentLanguage with _ | ⟨loc, b⟩ <;> rfl

theorem pass_currentCulture (cfg : Config) (s : LocaleState) :
    ((onLocalizationChanged cfg s).1).currentCulture = s.currentCulture := by
  unfold onLocalizationChanged
  rcases resolveBucket cfg s.currentLanguage with _ | ⟨loc, b⟩ <;> rfl

theorem pass_events (cfg : Config) (s : LocaleState) :
    passCount (onLocalizationChanged cfg s).2 = 1 ∧
    notifyCount (onLocalizationChanged cfg s).2 = 1 := by
  unfold onLocalizationChanged
  rcases resolveBucket cfg s.currentLanguage with _ | ⟨loc, b⟩ <;>
    simp [passCount, notifyCount, List.count_cons]

theorem pass_activeSet (cfg : Config) (s : LocaleState) :
    ((onLocalizationChanged cfg s).1).activeSet =
      (match resolveBucket cfg s.currentLanguage with
        | some p => p.2
        | none => []) := by
  unfold onLocalizationChanged
  rcases resolveBucket cfg s.currentLanguage with _ | ⟨loc, b⟩ <;> rfl

theorem tryGet_eq_some (cfg : Config) (loc : String) (b : List LocalizedStringTable)
    (h : tryGet cfg loc = some b) : b = bucket cfg loc := by
  unfold tryGet at h
  split at h
  · exact absurd h (by simp)
  · exact (Option.some.inj h).symm

theorem resolveBucket_tryGet (cfg : Config) (lang : CultureInfo) (loc : String)
    (b : List LocalizedStringTable) (h : resolveBucket cfg lang = some (loc, b)) :
    tryGet cfg loc = some b := by
  unfold resolveBucket at h
  split at h
  · rcases h with ⟨rfl, rfl⟩
    assumption
  · split at h
    · rename_i bnd heq
      simp only [Option.some.injEq, Prod.mk.injEq] at h
      obtain ⟨rfl, rfl⟩ := h
      split at heq
      · exact absurd heq (by simp)
      · exact heq
    · split at h
      · rcases h with ⟨rfl, rfl⟩
        assumption
      · exact absurd h (by simp)

theorem resolveBucket_key (cfg : Config) (lang : CultureInfo) (loc : String)
    (b : List LocalizedStringTable) (h : resolveBucket cfg lang = some (loc, b)) :
    loc = lang.name ∨ loc = lang.parentName ∨ loc = "en" := by
  unfold resolveBucket at h
  split at h
  · rcases h with ⟨rfl, rfl⟩
    exact Or.inl rfl
  · split at h
    · rcases h with ⟨rfl, rfl⟩
      exact Or.inr (Or.inl rfl)
    · split at h
      · rcases h with ⟨rfl, rfl⟩
        exact Or.inr (Or.inr rfl)
      · exact absurd h (by simp)

theorem pass_inv (cfg : Config) (s : LocaleState) :
    activeSetInv cfg ((onLocalizationChanged cfg s).1).activeSet := by
  rw [activeSetInv, pass_activeSet]
  rcases h : resolveBucket cfg s.currentLanguage with _ | ⟨loc, b⟩
  · exact Or.inl rfl
  · exact Or.inr ⟨loc, resolveBucket_tryGet cfg s.currentLanguage loc b h⟩

theorem pass_idem (cfg : Config) (s : LocaleState) :
    onLocalizationChanged cfg (onLocalizationChanged cfg s).1 =
      ((onLocalizationChanged cfg s).1, (onLocalizationChanged cfg s).2) := by
  rcases h : resolveBucket cfg s.currentLanguage with _ | ⟨loc, b⟩ <;>
    simp [onLocalizationChanged, h]

theorem pass_congr_loaded (cfg₁ cfg₂ : Config) (s : LocaleState)
    (h : loadedTables cfg₁ = loadedTables cfg₂) :
    onLocalizationChanged cfg₁ s = onLocalizationChanged cfg₂ s := by
  simp only [onLocalizationChanged, resolveBucket, tryGet, bucket, h]

/-- C2: every resolution pass fires the change notification exactly once, whatever the
outcome of bucket selection (the `Localization::LocalizationChanged()` call sits after
the conditional apply step, Localization.cpp:99-100). -/
theorem every_pass_fires_exactly_one_notification (cfg : Config) (s : LocaleState) :
    notifyCount (onLocalizationChanged cfg s).2 = 1 ∧
    passCount (onLocalizationChanged cfg s).2 = 1 :=
  ⟨(pass_events cfg s).2, (pass_events cfg s).1⟩

/-- C9: resolution is deterministic and idempotent — running the pass twice in a row on
the same configuration with no intervening state change yields the same active set and
the same event trace both times, firing the notification on each pass. -/
theorem resolution_deterministic_idempotent (cfg : Config) (s : LocaleState) :
    ((onLocalizationChanged cfg (onLocalizationChanged cfg s).1).1).activeSet =
      ((onLocalizationChanged cfg s).1).activeSet ∧
    (onLocalizationChanged cfg (onLocalizationChanged cfg s).1).2 =
      (onLocalizationChanged cfg s).2 ∧
    notifyCount (onLocalizationChanged cfg s).2 = 1 ∧
    notifyCount (onLocalizationChanged cfg (onLocalizationChanged cfg s).1).2 = 1 := by
  rw [pass_idem]
  exact ⟨rfl, rfl, (pass_events cfg s).2, (pass_events cfg s).2⟩

/-- C10: frame property of the single-field setters — `SetCurrentCulture` never touches
`CurrentLanguage` and `SetCurrentLanguage` never touches `CurrentCulture`. -/
theorem single_setter_frame (cfg : Config) (s : LocaleState) (v : CultureInfo) :
    ((setCurrentCulture cfg s v).1).currentLanguage = s.currentLanguage ∧
    ((setCurrentLanguage cfg s v).1).currentCulture = s.currentCulture := by
  constructor
  · unfold setCurrentCulture
    split
    · rfl
    · rw [pass_currentLanguage]
  · unfold setCurrentLanguage
    split
    · rfl
    · rw [pass_currentCulture]

/-- C1: the resolution pass selects the bucket by the three-tier fallback, in order,
stopping at the first hit — exact locale name, then (only when the exact bucket is
absent and the parent name is non-empty) the parent culture's name, then the hard-coded
"en" — and the selected bucket's tables become the entire active set. -/
theorem three_tier_fallback (cfg : Config) (s : LocaleState) :
    (∀ b, tryGet cfg s.currentLanguage.name = some b →
      ((onLocalizationChanged cfg s).1).activeSet = b) ∧
    (tryGet cfg s.currentLanguage.name = none →
      s.currentLanguage.parentName ≠ "" →
      ∀ b, tryGet cfg s.currentLanguage.parentName = some b →
        ((onLocalizationChanged cfg s).1).activeSet = b) ∧
    (tryGet cfg s.currentLanguage.name = none →
      (s.currentLanguage.parentName = "" ∨
        tryGet cfg s.currentLanguage.parentName = none) →
      ∀ b, tryGet cfg "en" = some b →
        ((onLocalizationChanged cfg s).1).activeSet = b) := by
  refine ⟨?_, ?_, ?_⟩
  · intro b hb
    rw [pass_activeSet]
    unfold resolveBucket
    rw [hb]
  · intro hn hp b hb
    rw [pass_activeSet]
    unfold resolveBucket
    rw [hn, if_neg hp, hb]
  · intro hn hp b hb
    rw [pass_activeSet]
    unfold resolveBucket
    rcases hp with hp | hp
    · rw [hn, if_pos hp, hb]
    · by_cases hz : s.currentLanguage.parentName = ""
      · rw [hn, if_pos hz, hb]
      · rw [hn, if_neg hz, hp, hb]

/-- C3: the table pool is a pure function of the current configuration (rebuilt from
scratch each pass), every pooled table comes from a successfully loaded entry, and an
entry that fails to load contributes nothing and changes nothing about the pass. -/
theorem failed_reference_skipped :
    (∀ (cfg : Config) (loc : String) (t : LocalizedStringTable),
      t ∈ bucket cfg loc → some t ∈ cfg) ∧
    (∀ (xs ys : Config) (s : LocaleState),
      onLocalizationChanged (xs ++ none :: ys) s = onLocalizationChanged (xs ++ ys) s) := by
  constructor
  · intro cfg loc t ht
    rw [bucket] at ht
    have := List.mem_of_mem_filter ht
    rw [loadedTables, List.mem_filterMap] at this
    obtain ⟨a, ha, haeq⟩ := this
    have ha' : a = some t := haeq
    exact ha' ▸ ha
  · intro xs ys s
    apply pass_congr_loaded
    simp [loadedTables]

/-- C4: setting the language (or the culture) to a value equal to the current one —
equality taken on the locale identifier, not the name string — is the identity on the
whole state: no resolution pass, no notification, no event at all. -/
theorem redundant_setter_noop (cfg : Config) (s : LocaleState) (v : CultureInfo) :
    (s.currentLanguage.lcid = v.lcid →
      setCurrentLanguage cfg s v = (s, []) ∧
      passCount (setCurrentLanguage cfg s v).2 = 0 ∧
      notifyCount (setCurrentLanguage cfg s v).2 = 0) ∧
    (s.currentCulture.lcid = v.lcid →
      setCurrentCulture cfg s v = (s, []) ∧
      passCount (setCurrentCulture cfg s v).2 = 0 ∧
      notifyCount (setCurrentCulture cfg s v).2 = 0) := by
  constructor
  · intro h
    have hg : cultureEq s.currentLanguage v = true := by
      simp [cultureEq, h]
    unfold setCurrentLanguage
    rw [if_pos hg]
    exact ⟨rfl, rfl, rfl⟩
  · intro h
    have hg : cultureEq s.currentCulture v = true := by
      simp [cultureEq, h]
    unfold setCurrentCulture
    rw [if_pos hg]
    exact ⟨rfl, rfl, rfl⟩

/-- C5: `SetCurrentLanguageCulture` sets both fields in one step: it is the identity
(no state change, no pass, no notification) exactly when both fields already equal the
value; otherwise it installs the value into both fields and runs exactly one resolution
pass, hence exactly one notification. -/
theorem setLanguageCulture_both_or_noop (cfg : Config) (s : LocaleState) (v : CultureInfo) :
    (s.currentCulture.lcid = v.lcid ∧ s.currentLanguage.lcid = v.lcid →
      setCurrentLanguageCulture cfg s v = (s, [])) ∧
    (¬(s.currentCulture.lcid = v.lcid ∧ s.currentLanguage.lcid = v.lcid) →
      ((setCurrentLanguageCulture cfg s v).1.currentCulture = v ∧
       (setCurrentLanguageCulture cfg s v).1.currentLanguage = v ∧
       passCount (setCurrentLanguageCulture cfg s v).2 = 1 ∧
       notifyCount (setCurrentLanguageCulture cfg s v).2 = 1)) := by
  constructor
  · intro h
    have hg : (cultureEq s.currentCulture v && cultureEq s.currentLanguage v) = true := by
      simp [cultureEq, h.1, h.2]
    unfold setCurrentLanguageCulture
    rw [if_pos hg]
  · intro h
    have hg : (cultureEq s.currentCulture v && cultureEq s.currentLanguage v) = false := by
      rcases not_and_or.mp h with h | h <;> simp [cultureEq, h]
    unfold setCurrentLanguageCulture
    rw [hg]
    simp only [Bool.false_eq_true, if_false]
    refine ⟨?_, ?_, ?_, ?_⟩
    · rw [pass_currentCulture]
    · rw [pass_currentLanguage]
    · simp [passCount, List.count_cons]
      exact (pass_events cfg _).1
    · simp [notifyCount, List.count_cons]
      exact (pass_events cfg _).2

/-- C6: after every resolution pass the active set is empty or exactly one pool bucket;
a bucket never mixes locales; when none of the three fallback buckets exist the active
set is exactly empty; and the invariant is preserved by every public operation. -/
theorem activeSet_single_bucket_invariant :
    (∀ (cfg : Config) (s : LocaleState),
      activeSetInv cfg ((onLocalizationChanged cfg s).1).activeSet) ∧
    (∀ (cfg : Config) (loc : String) (b : List LocalizedStringTable)
        (t : LocalizedStringTable), tryGet cfg loc = some b → t ∈ b → t.locale = loc) ∧
    (∀ (cfg : Config) (s : LocaleState),
      tryGet cfg s.currentLanguage.name = none →
      tryGet cfg s.currentLanguage.parentName = none →
      tryGet cfg "en" = none →
      ((onLocalizationChanged cfg s).1).activeSet = []) ∧
    (∀ (cfg : Config) (s : LocaleState) (op : LocOp),
      activeSetInv cfg s.activeSet →
      activeSetInv cfg ((runOp cfg s op).1).activeSet) := by
  refine ⟨pass_inv, ?_, ?_, ?_⟩
  · intro cfg loc b t hb ht
    rw [tryGet_eq_some cfg loc b hb] at ht
    unfold bucket at ht
    simpa using List.of_mem_filter ht
  · intro cfg s h1 h2 h3
    rw [pass_activeSet]
    unfold resolveBucket
    by_cases hz : s.currentLanguage.parentName = ""
    · rw [h1, if_pos hz, h3]
    · rw [h1, if_neg hz, h2, h3]
  · intro cfg s op hinv
    cases op
    case setCulture v =>
      show activeSetInv cfg ((setCurrentCulture cfg s v).1).activeSet
      unfold setCurrentCulture
      split
      · exact hinv
      · exact pass_inv cfg _
    case setLanguage v =>
      show activeSetInv cfg ((setCurrentLanguage cfg s v).1).activeSet
      unfold setCurrentLanguage
      split
      · exact hinv
      · exact pass_inv cfg _
    case setLanguageCulture v =>
      show activeSetInv cfg ((setCurrentLanguageCulture cfg s v).1).activeSet
      unfold setCurrentLanguageCulture
      split
      · exact hinv
      · exact pass_inv cfg _
    case applySettings =>
      exact pass_inv cfg s

/-- C7: the active set is always a subsequence of the loaded tables in configuration
order (so tables of the resolved bucket keep their configured relative order), and
interleaving an entry of any other locale anywhere in the configuration leaves a
bucket unchanged. -/
theorem configured_order_preserved :
    (∀ (cfg : Config) (s : LocaleState),
      List.Sublist ((onLocalizationChanged cfg s).1).activeSet (loadedTables cfg)) ∧
    (∀ (xs ys : Config) (loc : String) (t : LocalizedStringTable),
      t.locale ≠ loc →
      bucket (xs ++ some t :: ys) loc = bucket (xs ++ ys) loc) := by
  constructor
  · intro cfg s
    rw [pass_activeSet]
    rcases h : resolveBucket cfg s.currentLanguage with _ | ⟨loc, b⟩
    · exact List.nil_sublist _
    · show List.Sublist b (loadedTables cfg)
      rw [tryGet_eq_some cfg loc b (resolveBucket_tryGet cfg s.currentLanguage loc b h)]
      exact List.filter_sublist _
  · intro xs ys loc t ht
    have hf : (t.locale == loc) = false := by simp [ht]
    simp [bucket, loadedTables, List.filter_append, hf]

/-- C8: the resolver never selects an unrelated locale — every table of a non-empty
active set is tagged with the current language's full name, its direct parent's name,
or "en"; in particular with tables {"en", "es-MX"} and language "es-AR" resolution
falls through to the "en" bucket, never to the sibling dialect "es-MX". -/
theorem never_unrelated_locale :
    (∀ (cfg : Config) (s : LocaleState) (t : LocalizedStringTable),
      t ∈ ((onLocalizationChanged cfg s).1).activeSet →
      t.locale = s.currentLanguage.name ∨ t.locale = s.currentLanguage.parentName ∨
        t.locale = "en") ∧
    ((onLocalizationChanged cfgSibling stEsAR).1).activeSet = [tEn] := by
  constructor
  · intro cfg s t ht
    rw [pass_activeSet] at ht
    rcases h : resolveBucket cfg s.currentLanguage with _ | ⟨loc, b⟩
    · rw [h] at ht
      exact absurd ht (by simp)
    · rw [h] at ht
      change t ∈ b at ht
      rw [tryGet_eq_some cfg loc b (resolveBucket_tryGet cfg s.currentLanguage loc b h)]
        at ht
      unfold bucket at ht
      have hloc : t.locale = loc := by simpa using List.of_mem_filter ht
      rcases resolveBucket_key cfg s.currentLanguage loc b h with hk | hk | hk
      · exact Or.inl (hloc.trans hk)
      · exact Or.inr (Or.inl (hloc.trans hk))
      · exact Or.inr (Or.inr (hloc.trans hk))
  · decide

/-- Witness for C1: the three tiers at closed inputs — exact "en-GB" hit, parent
fallback "en-GB" → "en", and default fallback "es-AR" → "en". -/
theorem three_tier_fallback_witness :
    ((onLocalizationChanged cfgEx stEx).1).activeSet = [tEnGB] ∧
    ((onLocalizationChanged cfgParent stEx).1).activeSet = [tEn] ∧
    ((onLocalizationChanged cfgSibling stEsAR).1).activeSet = [tEn] :=
  ⟨(three_tier_fallback cfgEx stEx).1 [tEnGB] (by decide),
   (three_tier_fallback cfgParent stEx).2.1 (by decide) (by decide) [tEn] (by decide),
   (three_tier_fallback cfgSibling stEsAR).2.2 (by decide) (Or.inr (by decide)) [tEn]
     (by decide)⟩

/-- Witness for C3: a pooled table comes from a loaded entry, and a failing entry in
the middle of the configuration changes nothing about the pass. -/
theorem failed_reference_skipped_witness :
    some tEn ∈ cfgEx ∧
    onLocalizationChanged ([some tEn] ++ none :: [some tFr]) stEx =
      onLocalizationChanged ([some tEn] ++ [some tFr]) stEx :=
  ⟨failed_reference_skipped.1 cfgEx "en" tEn (by decide),
   failed_reference_skipped.2 [some tEn] [some tFr] stEx⟩

/-- Witness for C4: setting the language or culture to a same-LCID value with a
different name string is the identity and emits no event. -/
theorem redundant_setter_noop_witness :
    setCurrentLanguage cfgEx stEx enGBAlias = (stEx, []) ∧
    setCurrentCulture cfgEx stEx enGBAlias = (stEx, []) :=
  ⟨((redundant_setter_noop cfgEx stEx enGBAlias).1 (by decide)).1,
   ((redundant_setter_noop cfgEx stEx enGBAlias).2 (by decide)).1⟩

/-- Witness for C5: `SetCurrentLanguageCulture` is the identity when both fields match
by LCID, and on a real change installs the value in both fields with one
notification. -/
theorem setLanguageCulture_both_or_noop_witness :
    setCurrentLanguageCulture cfgEx stEx enGBAlias = (stEx, []) ∧
    (setCurrentLanguageCulture cfgEx stEx esAR).1.currentCulture = esAR ∧
    (setCurrentLanguageCulture cfgEx stEx esAR).1.currentLanguage = esAR ∧
    notifyCount (setCurrentLanguageCulture cfgEx stEx esAR).2 = 1 :=
  ⟨(setLanguageCulture_both_or_noop cfgEx stEx enGBAlias).1 ⟨by decide, by decide⟩,
   ((setLanguageCulture_both_or_noop cfgEx stEx esAR).2 (by decide)).1,
   ((setLanguageCulture_both_or_noop cfgEx stEx esAR).2 (by decide)).2.1,
   ((setLanguageCulture_both_or_noop cfgEx stEx esAR).2 (by decide)).2.2.2⟩

/-- Witness for C6: no bucket mixes locales, the no-match case yields an empty active
set, and a setter call preserves the active-set invariant, at closed inputs. -/
theorem activeSet_single_bucket_invariant_witness :
    tEn.locale = "en" ∧
    ((onLocalizationChanged cfgNoMatch stEsAR).1).activeSet = [] ∧
    activeSetInv cfgEx ((runOp cfgEx stEx (LocOp.setLanguage esAR)).1).activeSet :=
  ⟨activeSet_single_bucket_invariant.2.1 cfgEx "en" [tEn] tEn (by decide) (by decide),
   activeSet_single_bucket_invariant.2.2.1 cfgNoMatch stEsAR (by decide) (by decide)
     (by decide),
   activeSet_single_bucket_invariant.2.2.2 cfgEx stEx (LocOp.setLanguage esAR)
     (Or.inl rfl)⟩

/-- Witness for C7: order preservation at closed inputs — the resolved active set is a
subsequence of the loaded tables, and interleaving a "fr" table does not disturb the
"en" bucket. -/
theorem configured_order_preserved_witness :
    List.Sublist ((onLocalizationChanged cfgEx stEx).1).activeSet (loadedTables cfgEx) ∧
    bucket ([some tEn] ++ some tFr :: [some tEn2]) "en" =
      bucket ([some tEn] ++ [some tEn2]) "en" :=
  ⟨configured_order_preserved.1 cfgEx stEx,
   configured_order_preserved.2 [some tEn] [some tEn2] "en" tFr (by decide)⟩

/-- Witness for C8: the table selected for "en-GB" from the {"en","en-GB","fr"} pool is
tagged with an acceptable locale. -/
theorem never_unrelated_locale_witness :
    tEnGB.locale = stEx.currentLanguage.name ∨
    tEnGB.locale = stEx.currentLanguage.parentName ∨ tEnGB.locale = "en" :=
  never_unrelated_locale.1 cfgEx stEx tEnGB (by decide)

end Localization
